import Mathlib

/-!
A shallow embedding of `src/dbar.py` (py-dbar), a status-bar aggregator.

Conventions of the embedding:
* Python strings become `String`; machine-level concerns do not arise.
* A `Task` object's mutable attributes become the record `Dbar.TaskState`;
  methods become functions from state to state (plus returned values).
* `asyncio.create_task(self.cb())` (the change-notification callback) is
  modelled by a returned `Bool` that is `true` exactly when the callback
  would be scheduled.
* External effects (shell commands, file reads, clocks) are inputs to the
  functions that consume them.
* `time.monotonic()` values and the floating-point rate formatting of
  `NetworkTask` are passed in as parameters (`tm`, `fmtSpeed`): the claims
  under study never depend on their values, only on the byte counters and
  the branch structure around them.
-/

namespace Dbar

/-- Python `str.ljust(width)`: pad on the right with spaces to `width`;
return the string unchanged when it is already at least `width` long. -/
def pyLjust (s : String) (width : Nat) : String :=
  if s.length ≥ width then s
  else s ++ String.mk (List.replicate (width - s.length) ' ')

/-- Python `str.center(width)`: CPython computes `marg = width - len(s)` and
puts `marg / 2 + (marg &&& width &&& 1)` spaces on the left, the rest on the
right; the string is returned unchanged when already at least `width` long. -/
def pyCenter (s : String) (width : Nat) : String :=
  if s.length ≥ width then s
  else
    let marg := width - s.length
    let left := marg / 2 + (marg &&& width &&& 1)
    String.mk (List.replicate left ' ') ++ s ++
      String.mk (List.replicate (marg - left) ' ')

/-- Python `str.strip()` with no argument: remove leading and trailing
whitespace.  (Python's whitespace set also has `\x0b`/`\f`, which never occur
in this program's data.) -/
def pyStrip (s : String) : String :=
  String.mk
    (((s.data.dropWhile Char.isWhitespace).reverse.dropWhile
        Char.isWhitespace).reverse)

/-- The decimal value of a list of ASCII digits. -/
def digitsToNat (l : List Char) : Nat :=
  l.foldl (fun n c => n * 10 + (c.toNat - 48)) 0

/-- Python `int()` applied to an already-stripped string, for the forms this
program can receive: an optional ASCII sign followed by ASCII digits.  Other
accepted Python forms (underscores, unicode digits) never occur here and are
mapped to failure, matching the `except` fallback of the caller. -/
def pyInt? (s : String) : Option Int :=
  match s.data with
  | [] => none
  | '-' :: rest =>
    if rest ≠ [] ∧ rest.all Char.isDigit
    then some (-(digitsToNat rest : Int)) else none
  | '+' :: rest =>
    if rest ≠ [] ∧ rest.all Char.isDigit
    then some ((digitsToNat rest : Int)) else none
  | l =>
    if l.all Char.isDigit then some ((digitsToNat l : Int)) else none

/-- `NOT_AVAILABLE = "ERROR N/A"` (src/dbar.py line 12). -/
def NOT_AVAILABLE : String := "ERROR N/A"

/-- The mutable attributes set up by `Task.__init__` (src/dbar.py 37-61).
`cb` is not stored: callback scheduling is modelled by the `Bool` returned
from `Task_update`.  `sig_setup` only affects signal-handler registration,
which is outside the state the claims mention. -/
structure TaskState where
  interval : Nat
  signal : Nat
  width : Nat
  dirty : Bool
  icon : List String
  raw_output : String
  output : String
  fgcolor : String
  bgcolor : String
  fgcolor2 : String
  bgcolor2 : String
  deriving Repr, DecidableEq

/-- `Task._format` (src/dbar.py 63-64): `out.ljust(width) if width else out`. -/
def Task_format (out : String) (width : Nat) : String :=
  if width ≠ 0 then pyLjust out width else out

/-- `Task._beautify` (src/dbar.py 66-76). -/
def Task_beautify (s : TaskState) (out : String) : String :=
  let head :=
    if s.icon ≠ [] then
      let fg := if s.fgcolor ≠ "" then "^c" ++ s.fgcolor ++ "^" else ""
      let bg := if s.bgcolor ≠ "" then "^b" ++ s.bgcolor ++ "^" else ""
      fg ++ bg ++ s.icon.headD ""
    else ""
  let fg2 := if s.fgcolor2 ≠ "" then "^c" ++ s.fgcolor2 ++ "^" else ""
  let bg2 := if s.bgcolor2 ≠ "" then "^b" ++ s.bgcolor2 ++ "^" else ""
  head ++ fg2 ++ bg2 ++ out ++ "^d^"

/-- `Task._update` (src/dbar.py 78-85), parameterised over the dynamically
dispatched `_format` and `_beautify`.  The source assigns `raw_output` and
`dirty` before calling `_beautify` (which may read `raw_output`), hence the
intermediate state `s1`.  The returned `Bool` is `true` exactly when the
change-notification callback is scheduled (`if self.cb: create_task(cb())`;
in `DBar` every task has the callback set). -/
def Task_update (fmtf : String → Nat → String) (beau : TaskState → String → String)
    (s : TaskState) (out : String) : TaskState × Bool :=
  let o := fmtf out s.width
  if o ≠ s.raw_output then
    let s1 : TaskState := { s with raw_output := o, dirty := true }
    ({ s1 with output := beau s1 o }, true)
  else (s, false)

/-- `Task.get_output` (src/dbar.py 90-93): return `(output, dirty)` and clear
the dirty flag. -/
def Task_get_output (s : TaskState) : (String × Bool) × TaskState :=
  ((s.output, s.dirty), { s with dirty := false })

/-- `MemTask.__init__` (src/dbar.py 114-124). -/
def MemTask_init : TaskState :=
  { interval := 30, signal := 0, width := 11, dirty := false
    icon := [" ﬙  "], raw_output := "", output := ""
    fgcolor := "#222222", bgcolor := "#8844ff"
    fgcolor2 := "#222222", bgcolor2 := "#aa88ff" }

/-- `DateTask.__init__` (src/dbar.py 299-309) with its default arguments. -/
def DateTask_init : TaskState :=
  { interval := 30, signal := 0, width := 22, dirty := false
    icon := ["   "], raw_output := "", output := ""
    fgcolor := "#222222", bgcolor := "#4488ff"
    fgcolor2 := "#222222", bgcolor2 := "#88aaff" }

/-- `CPUTask.__init__` (src/dbar.py 133-145), base-task fields only (the
`prev_busy`/`prev_total` accumulators feed the fetch text, which is an input
of the model). -/
def CPUTask_init : TaskState :=
  { interval := 3, signal := 0, width := 12, dirty := false
    icon := ["   "], raw_output := "", output := ""
    fgcolor := "#222222", bgcolor := "#d6482f"
    fgcolor2 := "#222222", bgcolor2 := "#e87c68" }

/-! ## AudioControlTask (src/dbar.py 164-216) -/

/-- `AudioControlTask` carries the base task state plus the persistent retry
counter `self.attempts` (src/dbar.py 176). -/
structure AudioState where
  task : TaskState
  attempts : Nat
  deriving Repr, DecidableEq

/-- `AudioControlTask.__init__` (src/dbar.py 165-176).  `signal.SIGRTMIN + 10`
is 44 on Linux (SIGRTMIN = 34). -/
def AudioControlTask_init : AudioState :=
  { task :=
      { interval := 0, signal := 44, width := 6, dirty := false
        icon := [" ﱝ", " 奄", " 奔", " 墳", " "], raw_output := "", output := ""
        fgcolor := "#222222", bgcolor := "#77ff33"
        fgcolor2 := "#222222", bgcolor2 := "#aaff88" }
    attempts := 10 }

/-- `AudioControlTask._format` (src/dbar.py 178-179): center instead of ljust. -/
def Audio_format (out : String) (width : Nat) : String :=
  if width ≠ 0 then pyCenter out width else out

/-- The icon-tier selection of `AudioControlTask._beautify` (src/dbar.py
186-195): thresholds 0 / <33 / <66 / <100 / otherwise pick `icon[0..4]`;
`none` models the `IndexError` a too-short icon list would raise (caught by
the bare `except`). -/
def audioHead (icon : List String) (v : Int) : Option String :=
  if v = 0 then (icon.get? 0).map (fun i => i ++ " ")
  else if v < 33 then (icon.get? 1).map (fun i => i ++ " ")
  else if v < 66 then (icon.get? 2).map (fun i => i ++ " ")
  else if v < 100 then (icon.get? 3).map (fun i => i ++ " ")
  else (icon.get? 4).map (fun i => i ++ " ")

/-- `AudioControlTask._beautify` (src/dbar.py 181-199).  The `out` argument is
discarded (`_ = out` in the source); the value is re-parsed from
`raw_output.strip()`.  Any failure inside the `try` yields `NOT_AVAILABLE`. -/
def Audio_beautify (s : TaskState) (out : String) : String :=
  let _ := out
  match pyInt? (pyStrip s.raw_output) with
  | none => NOT_AVAILABLE
  | some v =>
    match audioHead s.icon v with
    | none => NOT_AVAILABLE
    | some head =>
      let body := Audio_format (toString v ++ "%") s.width
      "^c" ++ s.fgcolor ++ "^^b" ++ s.bgcolor ++ "^" ++ head ++
        " ^c" ++ s.fgcolor2 ++ "^^b" ++ s.bgcolor2 ++ "^" ++ body ++ "^d^"

/-- The `while code != 0` loop of `AudioControlTask.work_meat` (src/dbar.py
201-216).  `fetch i` is the outcome of the `i`-th `amixer` invocation of this
cycle: `some vol` for exit code 0 with output `vol`, `none` for failure.
Returns `(task', notified, attempts', fetches, sleeps)` where `fetches`
counts `async_run` calls and `sleeps` counts `asyncio.sleep(1)` backoffs.
Structural recursion on `attempts` mirrors the `self.attempts -= 1` path. -/
def audioLoop (fetch : Nat → Option String) (t : TaskState) :
    Nat → Nat → TaskState × Bool × Nat × Nat × Nat
  | attempts, i =>
    match fetch i with
    | some vol =>
      let r := Task_update Audio_format Audio_beautify t (" " ++ pyStrip vol)
      (r.1, r.2, 10, 1, 0)
    | none =>
      match attempts with
      | Nat.succ a =>
        let r := audioLoop fetch t a (i + 1)
        (r.1, r.2.1, r.2.2.1, r.2.2.2.1 + 1, r.2.2.2.2 + 1)
      | 0 =>
        let r := Task_update Audio_format Audio_beautify t (" " ++ NOT_AVAILABLE)
        (r.1, r.2, 0, 1, 0)

/-- `AudioControlTask.work_meat` (src/dbar.py 201-216): run the retry loop
starting from the persistent `self.attempts` counter.  Returns the new state
plus `(notified, fetches, sleeps)`. -/
def AudioControlTask_work_meat (fetch : Nat → Option String) (s : AudioState) :
    AudioState × Bool × Nat × Nat :=
  let r := audioLoop fetch s.task s.attempts 0
  (⟨r.1, r.2.2.1⟩, r.2.1, r.2.2.2.1, r.2.2.2.2)

/-! ## NetworkTask (src/dbar.py 219-296) -/

/-- `NetworkTask` state: the base task plus `name`, `available`, the byte
counters `rx`/`tx` and the `last_read` timestamp (src/dbar.py 231-235).
`last_read` is `time.monotonic()`; only its comparison with 0 matters to the
claims, so it is carried as a `Nat`. -/
structure NetState where
  task : TaskState
  name : String
  available : Bool
  rx : Int
  tx : Int
  last_read : Nat
  deriving Repr, DecidableEq

/-- `NetworkTask._beautify` (src/dbar.py 237-240): empty string when the
device is unavailable, otherwise the base `Task._beautify`. -/
def Network_beautify (available : Bool) (s : TaskState) (out : String) : String :=
  if ¬ available then "" else Task_beautify s out

/-- `NetworkTask._format` (src/dbar.py 242-243): center instead of ljust. -/
def Network_format (out : String) (width : Nat) : String :=
  if width ≠ 0 then pyCenter out width else out

/-- `NetworkTask.__init__` (src/dbar.py 220-235). -/
def NetworkTask_init (name : String) (icon : List String)
    (fgcolor bgcolor fgcolor2 bgcolor2 : String) : NetState :=
  { task :=
      { interval := 3, signal := 0, width := 22, dirty := false
        icon := icon, raw_output := "", output := ""
        fgcolor := fgcolor, bgcolor := bgcolor
        fgcolor2 := fgcolor2, bgcolor2 := bgcolor2 }
    name := name, available := true, rx := 0, tx := 0, last_read := 0 }

/-- `WifiTask.__init__` (src/dbar.py 287-296). -/
def WifiTask_init : NetState :=
  NetworkTask_init "wifi" [" 直  "] "#222222" "#4441f2" "#222222" "#8886f0"

/-- `EthernetTask.__init__` (src/dbar.py 275-284). -/
def EthernetTask_init : NetState :=
  NetworkTask_init "ethernet" ["   "] "#222222" "#e0c516" "#222222" "#f2e383"

/-- `NetworkTask.work_meat` (src/dbar.py 245-272).  Inputs model the external
world: `result`/`status` are the output and exit code of the `nmcli … | grep`
pipeline; `rxNew`/`txNew` are the `/sys/class/net/<dev>/statistics` byte
counters read for the device parsed from `result`; `tm` is `time.monotonic()`;
`fmtSpeed diff prev tm` stands for `human_format(diff / (tm - prev)) + "/S"`,
whose floating-point text formatting is not itself under study.  Returns the
new state and whether the notification callback was scheduled. -/
def NetworkTask_work_meat (s : NetState) (result : String) (status : Nat)
    (rxNew txNew : Int) (tm : Nat) (fmtSpeed : Int → Nat → Nat → String) :
    NetState × Bool :=
  if status ≠ 0 ∧ result = "" then
    ({ s with task := { s.task with output := "", dirty := false }
              available := false }, false)
  else
    let s1 : NetState := { s with available := true }
    let rx_diff := rxNew - s1.rx
    let tx_diff := txNew - s1.tx
    let s2 : NetState := { s1 with rx := rxNew, tx := txNew }
    if s2.last_read = 0 then
      ({ s2 with last_read := tm }, false)
    else
      let rx_speed := fmtSpeed rx_diff s2.last_read tm
      let tx_speed := fmtSpeed tx_diff s2.last_read tm
      let s3 : NetState := { s2 with last_read := tm }
      let r := Task_update Network_format (Network_beautify s3.available)
        s3.task (" " ++ rx_speed ++ " " ++ tx_speed)
      ({ s3 with task := r.1 }, r.2)

/-! ## DBar (src/dbar.py 316-361) -/

/-- `DBar.__init__` (src/dbar.py 317-332).  `pgrep` is the parsed result of
`int(subprocess.check_output("pgrep dwm"))`: `none` when the command fails or
its output is not one integer, in which case the constructor calls
`sys.exit(1)` — modelled as `Except.error 1` — before any task is created.
On success, the six tasks are built in declared order. -/
def DBar_init (pgrep : Option Int) :
    Except Nat (Int × (NetState × NetState × TaskState × TaskState × AudioState × TaskState)) :=
  match pgrep with
  | none => Except.error 1
  | some ppid =>
    Except.ok (ppid,
      (WifiTask_init, EthernetTask_init, CPUTask_init, MemTask_init,
       AudioControlTask_init, DateTask_init))

/-- One probe iteration of `DBar._check_dwm` (src/dbar.py 334-341): `alive`
is whether `os.kill(ppid, 0)` succeeds.  `some c` means the process exits
with code `c`; the source calls `sys.exit()` with no argument, which exits
with status 0. -/
def DBar_check_dwm (alive : Bool) : Option Nat :=
  if alive then none else some 0

/-- One iteration of the `for t in self.tasks[1:]` loop of `DBar._update`
(src/dbar.py 345-349): `s, b = t.get_output(); if s: status += " " + s;
dirty = b or dirty`, with the post-read task state collected. -/
def dbarStep (acc : String × Bool × List TaskState) (t : TaskState) :
    String × Bool × List TaskState :=
  let r := Task_get_output t
  (if r.1.1 ≠ "" then acc.1 ++ " " ++ r.1.1 else acc.1,
   r.1.2 || acc.2.1,
   acc.2.2 ++ [r.2])

/-- `DBar._update` (src/dbar.py 343-352), the Aggregator's `recheck()`.
`t0` is `self.tasks[0]` and `rest` is `self.tasks[1:]` (the list is always
the six tasks, hence non-empty).  Each task's `get_output` is read in
declared order, clearing its dirty flag; non-empty fragments of the tail are
appended with a leading `" "` (one `dbarStep` per task); `tasks[0]`'s
fragment starts the string unconditionally.  If any flag was set,
`status + " "` is handed to `xsetroot` — modelled as `some published`;
otherwise no publish (`none`). -/
def DBar_update (t0 : TaskState) (rest : List TaskState) :
    (TaskState × List TaskState) × Option String :=
  let r0 := Task_get_output t0
  let acc := rest.foldl dbarStep (r0.1.1, r0.1.2, ([] : List TaskState))
  ((r0.2, acc.2.2), if acc.2.1 then some (acc.1 ++ " ") else none)

/-! ## Spec-side composition

The specification describes the published line as "all non-empty fragments
concatenated with a single-space separator, empty fragments skipped".  The
following definition follows those words (not the code) for the refinement
comparison in claim C2. -/

/-- Spec's words: single-space join of a list of fragments. -/
def specJoin : List String → String
  | [] => ""
  | s :: rest => if rest = [] then s else s ++ " " ++ specJoin rest

/-- Spec's words: the composed line is the single-space join of the
non-empty fragments, in declared order. -/
def specComposed (fragments : List String) : String :=
  specJoin (fragments.filter (fun s => s ≠ ""))

/-- The dirty-flag clear performed by `Task.get_output` on the state. -/
def clear1 (t : TaskState) : TaskState := { t with dirty := false }

/-- The status-string accumulation of `DBar._update`'s loop: starting from
`a` (the first task's fragment), append `" " ++ fragment` for every
non-empty fragment of `rest`. -/
def composeAcc (a : String) (rest : List TaskState) : String :=
  rest.foldl (fun acc t => if t.output ≠ "" then acc ++ " " ++ t.output else acc) a

/-! ## Helper lemmas -/

theorem string_ne_empty_of_length_pos (s : String) (h : 0 < s.length) : s ≠ "" := by
  intro e
  subst e
  simp at h

theorem append_space_ne_empty (a b : String) : a ++ " " ++ b ≠ "" := by
  apply string_ne_empty_of_length_pos
  rw [String.length_append, String.length_append,
    show (" " : String).length = 1 from rfl]
  omega

theorem clear1_of_not_dirty (t : TaskState) (h : t.dirty = false) : clear1 t = t := by
  cases t
  simp only [clear1] at h ⊢
  simp_all

theorem map_clear1_of_not_dirty (rest : List TaskState)
    (h : ∀ t ∈ rest, t.dirty = false) : rest.map clear1 = rest := by
  induction rest with
  | nil => rfl
  | cons x xs ih =>
    simp only [List.map_cons]
    rw [clear1_of_not_dirty x (h x (List.mem_cons_self x xs)),
      ih (fun t ht => h t (List.mem_cons_of_mem x ht))]

theorem Task_update_of_same (fmtf : String → Nat → String)
    (beau : TaskState → String → String) (s : TaskState) (out : String)
    (h : fmtf out s.width = s.raw_output) :
    Task_update fmtf beau s out = (s, false) := by
  simp [Task_update, h]

theorem Task_update_of_ne (fmtf : String → Nat → String)
    (beau : TaskState → String → String) (s : TaskState) (out : String)
    (h : fmtf out s.width ≠ s.raw_output) :
    Task_update fmtf beau s out =
      ({ { s with raw_output := fmtf out s.width, dirty := true } with
          output := beau { s with raw_output := fmtf out s.width, dirty := true }
            (fmtf out s.width) }, true) := by
  simp [Task_update, h]

theorem dbarStep_eq (acc : String × Bool × List TaskState) (t : TaskState) :
    dbarStep acc t
      = (if t.output ≠ "" then acc.1 ++ " " ++ t.output else acc.1,
         t.dirty || acc.2.1, acc.2.2 ++ [clear1 t]) := rfl

theorem DBar_foldl_eq (rest : List TaskState) (a : String) (d : Bool)
    (l : List TaskState) :
    rest.foldl dbarStep (a, d, l)
      = (composeAcc a rest, rest.any (fun t => t.dirty) || d,
         l ++ rest.map clear1) := by
  induction rest generalizing a d l with
  | nil => simp [composeAcc]
  | cons x xs ih =>
    rw [List.foldl_cons,
      show dbarStep (a, d, l) x
        = (if x.output ≠ "" then a ++ " " ++ x.output else a,
           x.dirty || d, l ++ [clear1 x]) from rfl,
      ih]
    simp only [List.any_cons, List.map_cons, Prod.mk.injEq]
    refine ⟨rfl, ?_, ?_⟩
    · cases x.dirty <;> cases d <;> simp
    · simp [List.append_assoc]

theorem DBar_update_eq (t0 : TaskState) (rest : List TaskState) :
    DBar_update t0 rest =
      ((clear1 t0, rest.map clear1),
       if rest.any (fun t => t.dirty) || t0.dirty
       then some (composeAcc t0.output rest ++ " ") else none) := by
  unfold DBar_update
  simp only [Task_get_output]
  rw [DBar_foldl_eq]
  simp [clear1]

theorem specJoin_cons_cons (a b : String) (l : List String) :
    specJoin (a :: b :: l) = a ++ " " ++ specJoin (b :: l) := by
  simp [specJoin]

theorem specJoin_merge (a b : String) (l : List String) :
    specJoin ((a ++ " " ++ b) :: l) = specJoin (a :: b :: l) := by
  cases l with
  | nil => simp [specJoin]
  | cons c l' =>
    simp only [specJoin_cons_cons, String.append_assoc]

theorem specComposed_cons_ne (a : String) (ha : a ≠ "") (l : List String) :
    specComposed (a :: l) = specJoin (a :: l.filter (fun s => s ≠ "")) := by
  simp [specComposed, List.filter_cons, ha]

theorem composeAcc_spec (rest : List TaskState) (a : String) (ha : a ≠ "") :
    composeAcc a rest = specComposed (a :: rest.map (fun t => t.output)) := by
  induction rest generalizing a with
  | nil =>
    simp [composeAcc, specComposed, specJoin, List.filter_cons, ha]
  | cons x xs ih =>
    by_cases hx : x.output = ""
    · have step : composeAcc a (x :: xs) = composeAcc a xs := by
        simp [composeAcc, hx]
      rw [step, ih a ha, List.map_cons, hx,
        specComposed_cons_ne a ha, specComposed_cons_ne a ha]
      congr 1
    · have step : composeAcc a (x :: xs) = composeAcc (a ++ " " ++ x.output) xs := by
        simp [composeAcc, hx]
      rw [step, ih (a ++ " " ++ x.output) (append_space_ne_empty a x.output),
        List.map_cons, specComposed_cons_ne _ (append_space_ne_empty a x.output),
        specComposed_cons_ne a ha, specJoin_merge]
      congr 1
      simp [List.filter_cons, hx]

/-! ## Claim theorems -/

/-- Claim C7, counterexample.  The claim states that formatting the input
`"512M/16G"` at width 11 produces `"512M/16G  "` (two trailing spaces, a
string of length 10).  `Task._format` is `ljust(11)`, which pads the
8-character input with three spaces; the claimed output is not even of
width 11. -/
theorem C7_counterexample :
    Task_format "512M/16G" 11 = "512M/16G   "
    ∧ Task_format "512M/16G" 11 ≠ "512M/16G  "
    ∧ ("512M/16G  " : String).length = 10 := by
  decide

/-- Claim C7, amended: for a Source configured with width 11 (`MemTask`),
formatting the input `"512M/16G"` produces `"512M/16G   "`, the input padded
with three spaces to width 11. -/
theorem C7_width11_padding :
    MemTask_init.width = 11
    ∧ Task_format "512M/16G" MemTask_init.width = "512M/16G   "
    ∧ (Task_format "512M/16G" MemTask_init.width).length = 11 := by
  decide

/-- Claim C8: a refresh of the audio Source whose `amixer` fetch returns
`"45"` selects the second-lowest icon tier — `audioHead` picks `icon[2]`,
the glyph for values in `[33, 66)` — and renders the body text `"45%"`
(centered to the declared width 6, hence `" 45%  "`, which strips back to
`"45%"`).  The first conjunct evaluates the whole refresh
(`work_meat` with a successful first fetch) to the exact rendered
fragment. -/
theorem C8_audio_tier_45 :
    (AudioControlTask_work_meat (fun _ => some "45") AudioControlTask_init).1.task.output
      = "^c#222222^^b#77ff33^" ++ " 奔" ++ " " ++ " ^c#222222^^b#aaff88^"
        ++ Audio_format "45%" 6 ++ "^d^"
    ∧ audioHead AudioControlTask_init.task.icon 45
        = (AudioControlTask_init.task.icon.get? 2).map (fun i => i ++ " ")
    ∧ AudioControlTask_init.task.icon.get? 2 = some " 奔"
    ∧ Audio_format "45%" 6 = " 45%  "
    ∧ pyStrip (Audio_format "45%" 6) = "45%" := by
  decide

/-- Claim C5, counterexample.  The claim states that when a Watchdog
liveness probe finds the supervised process gone, the process terminates
with a non-zero exit code.  `DBar._check_dwm` calls `sys.exit()` with no
argument, which exits with status 0. -/
theorem C5_counterexample :
    ¬ (∀ c, DBar_check_dwm false = some c → c ≠ 0) := by
  intro h
  exact h 0 rfl rfl

/-- Claim C5, amended: when the supervised process cannot be found at
startup, `DBar.__init__` exits with code 1 (non-zero) before any Source is
constructed; when a later Watchdog probe finds the process gone, the
process terminates, but via `sys.exit()` with no argument, i.e. with exit
code 0; a probe that finds it alive does not terminate. -/
theorem C5_exit_codes :
    DBar_init none = Except.error 1
    ∧ (1 : Nat) ≠ 0
    ∧ DBar_check_dwm false = some 0
    ∧ DBar_check_dwm true = none := by
  refine ⟨rfl, by decide, rfl, rfl⟩

/-- Claim C10: a network Source refresh in which the device is connected
(the `nmcli | grep` pipeline did not fail with empty output) and whose
stored previous-read timestamp is still zero only records the byte counters
and the timestamp (and `available := true`) and returns: the rendered
fragment, the raw fragment and the dirty flag are unchanged and the
notification callback is not scheduled, so no rate is computed from a
single sample. -/
theorem C10_first_cycle (s : NetState) (result : String) (status : Nat)
    (rxNew txNew : Int) (tm : Nat) (fmtSpeed : Int → Nat → Nat → String)
    (hconn : ¬ (status ≠ 0 ∧ result = "")) (hfirst : s.last_read = 0) :
    NetworkTask_work_meat s result status rxNew txNew tm fmtSpeed
      = ({ s with
            available := true, rx := rxNew, tx := txNew,
            last_read := tm }, false) := by
  unfold NetworkTask_work_meat
  rw [if_neg hconn]
  simp only [hfirst]
  rfl

/-- Witness for C10 at a concrete connected first read. -/
theorem C10_witness :
    NetworkTask_work_meat WifiTask_init "wlan0 wifi connected" 0 100 200 7
        (fun _ _ _ => "")
      = ({ WifiTask_init with
            available := true, rx := 100, tx := 200,
            last_read := 7 }, false) :=
  C10_first_cycle WifiTask_init "wlan0 wifi connected" 0 100 200 7
    (fun _ _ _ => "") (by decide) rfl

/-- Claim C4: for every Source (any dynamically dispatched `_format` and
`_beautify`), a refresh whose formatted text equals the previously stored
raw fragment leaves the whole task state unchanged — in particular the dirty
flag stays false if it was false, and the raw fragment and rendered output
are untouched — and does not schedule the change-notification callback. -/
theorem C4_noop_refresh (fmtf : String → Nat → String)
    (beau : TaskState → String → String) (s : TaskState) (out : String)
    (h : fmtf out s.width = s.raw_output) :
    Task_update fmtf beau s out = (s, false) :=
  Task_update_of_same fmtf beau s out h

/-- Witness for C4: a `MemTask` refresh returning the text already stored. -/
theorem C4_witness :
    Task_update Task_format Task_beautify
        { MemTask_init with raw_output := Task_format " x" 11 } " x"
      = ({ MemTask_init with raw_output := Task_format " x" 11 }, false) :=
  C4_noop_refresh Task_format Task_beautify
    { MemTask_init with raw_output := Task_format " x" 11 } " x" (by decide)

/-- Claim C3: when `recheck()` (`DBar._update`) runs and no Source is dirty,
nothing is published (the `xsetroot` publisher is not invoked) and every
Source's state is unchanged — the only writes are the dirty-flag clears of
`get_output`, which rewrite the already-false flags. -/
theorem C3_no_dirty_no_publish (t0 : TaskState) (rest : List TaskState)
    (h0 : t0.dirty = false) (h : ∀ t ∈ rest, t.dirty = false) :
    DBar_update t0 rest = ((t0, rest), none) := by
  rw [DBar_update_eq, clear1_of_not_dirty t0 h0, map_clear1_of_not_dirty rest h]
  have hany : rest.any (fun t => t.dirty) = false := by
    rw [List.any_eq_false]
    intro t ht
    simp [h t ht]
  rw [hany, h0]
  rfl

/-- Witness for C3: two clean tasks, no publish, states returned intact. -/
theorem C3_witness :
    DBar_update MemTask_init [DateTask_init]
      = ((MemTask_init, [DateTask_init]), none) :=
  C3_no_dirty_no_publish MemTask_init [DateTask_init] rfl (by decide)

/-- Claim C2, counterexample.  The claim states the published string is the
concatenation of the non-empty fragments joined by single spaces with no
extra separator artifact.  With both tasks dirty and fragments `"A"`, `"B"`,
the code publishes `"A B "` — the join plus a trailing space (src/dbar.py
351: `status = status + " "`) — which differs from the claimed `"A B"`.
(When the first task's fragment is empty a leading space also appears,
since `tasks[0]`'s fragment starts the string unconditionally.) -/
theorem C2_counterexample :
    (DBar_update { MemTask_init with output := "A", dirty := true }
        [{ MemTask_init with output := "B", dirty := true }]).2
      = some "A B "
    ∧ specComposed
        (({ MemTask_init with output := "A", dirty := true } ::
          [{ MemTask_init with output := "B", dirty := true }]).map
            (fun t => t.output))
      = "A B"
    ∧ ("A B " : String) ≠ "A B" := by
  decide

/-- Claim C2, amended: whenever `recheck()` runs with at least one dirty
Source it publishes exactly once (the model returns one `some`), and the
published string is the first Source's fragment followed by each subsequent
non-empty fragment prefixed by a single space, followed by one trailing
space.  Whenever the first Source's fragment is non-empty, the part before
the trailing space is exactly the spec's composition: all non-empty
fragments, in declared order, joined by single spaces with empty fragments
skipped. -/
theorem C2_publish_composition (t0 : TaskState) (rest : List TaskState)
    (hd : t0.dirty = true ∨ ∃ t ∈ rest, t.dirty = true) :
    (DBar_update t0 rest).2 = some (composeAcc t0.output rest ++ " ")
    ∧ (t0.output ≠ "" →
        composeAcc t0.output rest
          = specComposed ((t0 :: rest).map (fun t => t.output))) := by
  constructor
  · rw [DBar_update_eq]
    have hany : (rest.any (fun t => t.dirty) || t0.dirty) = true := by
      rcases hd with h0 | ⟨t, ht, htd⟩
      · simp [h0]
      · have : rest.any (fun t => t.dirty) = true :=
          List.any_eq_true.mpr ⟨t, ht, by simp [htd]⟩
        simp [this]
    rw [hany]
    rfl
  · intro h0
    rw [List.map_cons]
    exact composeAcc_spec rest t0.output h0

/-- Witness for C2 at concrete input: first fragment `"A"` (dirty), second
fragment empty — published line `"A "`, and the pre-trailing-space part
agrees with the spec composition (the empty fragment is skipped). -/
theorem C2_witness :
    (DBar_update { MemTask_init with output := "A", dirty := true }
        [{ DateTask_init with output := "" }]).2
      = some (composeAcc "A" [{ DateTask_init with output := "" }] ++ " ")
    ∧ composeAcc "A" [{ DateTask_init with output := "" }]
      = specComposed
          (({ MemTask_init with output := "A", dirty := true } ::
            [{ DateTask_init with output := "" }]).map (fun t => t.output)) := by
  have h := C2_publish_composition
    { MemTask_init with output := "A", dirty := true }
    [{ DateTask_init with output := "" }] (Or.inl rfl)
  exact ⟨h.1, h.2 (by decide)⟩

/-- Claim C6, counterexample.  The claim states that every refresh cycle of
the audio Source retries a failing fetch up to 10 times with 1-second
backoffs, falling back to the unavailable marker only after exhausting the
retries.  But `self.attempts` is a persistent counter, reset to 10 only on a
successful fetch: a first all-failing cycle uses 11 fetch attempts and 10
sleeps, and leaves the counter at 0, so the *next* all-failing cycle makes a
single fetch attempt and falls back immediately with no retry and no
backoff — `(fetches, sleeps) = (1, 0)`, not `(11, 10)`. -/
theorem C6_counterexample :
    (AudioControlTask_work_meat (fun _ => none) AudioControlTask_init).2.2
      = (11, 10)
    ∧ (AudioControlTask_work_meat (fun _ => none) AudioControlTask_init).1.attempts
      = 0
    ∧ (AudioControlTask_work_meat (fun _ => none)
        (AudioControlTask_work_meat (fun _ => none) AudioControlTask_init).1).2.2
      = (1, 0)
    ∧ (AudioControlTask_work_meat (fun _ => none)
        (AudioControlTask_work_meat (fun _ => none) AudioControlTask_init).1).1.task.raw_output
      = " " ++ NOT_AVAILABLE
    ∧ ((1 : Nat), (0 : Nat)) ≠ ((11 : Nat), (10 : Nat)) := by
  decide

/-- Claim C6, amended: the audio Source keeps a persistent retry budget,
initialised to 10 and reset to 10 only by a successful fetch.  Within one
refresh cycle, a cycle whose fetches all fail performs `budget + 1` fetch
attempts separated by `budget` one-second sleeps and then falls back to
updating with the unavailable marker, leaving the budget at 0 (so only a
cycle entered with a full budget retries 10 times; a cycle after an
exhausted one falls back on its first failure).  A fetch that succeeds ends
the cycle at once and restores the budget to 10. -/
theorem C6_retry_budget :
    AudioControlTask_init.attempts = 10
    ∧ (∀ (t : TaskState) (a i : Nat),
        audioLoop (fun _ => none) t a i
          = ((Task_update Audio_format Audio_beautify t
                (" " ++ NOT_AVAILABLE)).1,
             (Task_update Audio_format Audio_beautify t
                (" " ++ NOT_AVAILABLE)).2,
             0, a + 1, a))
    ∧ (∀ (fetch : Nat → Option String) (t : TaskState) (a i : Nat) (v : String),
        fetch i = some v →
        audioLoop fetch t a i
          = ((Task_update Audio_format Audio_beautify t (" " ++ pyStrip v)).1,
             (Task_update Audio_format Audio_beautify t (" " ++ pyStrip v)).2,
             10, 1, 0)) := by
  refine ⟨rfl, ?_, ?_⟩
  · intro t a
    induction a with
    | zero => intro i; simp [audioLoop]
    | succ a ih =>
      intro i
      simp only [audioLoop]
      rw [ih (i + 1)]
  · intro fetch t a i v hfi
    cases a with
    | zero => simp only [audioLoop, hfi]
    | succ a => simp only [audioLoop, hfi]

/-- Witness for C6: a budget of 2 yields 3 fetch attempts and 2 sleeps
before the fallback; an immediate success resets the budget to 10. -/
theorem C6_witness :
    audioLoop (fun _ => none) AudioControlTask_init.task 2 0
      = ((Task_update Audio_format Audio_beautify AudioControlTask_init.task
            (" " ++ NOT_AVAILABLE)).1,
         (Task_update Audio_format Audio_beautify AudioControlTask_init.task
            (" " ++ NOT_AVAILABLE)).2,
         0, 3, 2)
    ∧ audioLoop (fun _ => some "45") AudioControlTask_init.task 7 0
      = ((Task_update Audio_format Audio_beautify AudioControlTask_init.task
            (" " ++ pyStrip "45")).1,
         (Task_update Audio_format Audio_beautify AudioControlTask_init.task
            (" " ++ pyStrip "45")).2,
         10, 1, 0) := by
  have h := C6_retry_budget
  exact ⟨h.2.1 AudioControlTask_init.task 2 0,
         h.2.2 (fun _ => some "45") AudioControlTask_init.task 7 0 "45" rfl⟩

/-- Claim C1, counterexample.  The claim states the dirty flag is cleared
exactly once, only by the Aggregator's `get_output` read, and set exactly
when a refresh changes the rendered fragment.  `NetworkTask.work_meat`'s
device-absent branch (src/dbar.py 249-253) refutes both parts at a concrete
state: a wifi task with a pending unread change (`dirty = true`, rendered
fragment `"x"`) whose device lookup fails has its dirty flag cleared
directly (no `get_output` involved) while the rendered fragment is changed
to `""` without the flag being set and without any notification. -/
theorem C1_counterexample :
    let s : NetState :=
      { WifiTask_init with
          task := { WifiTask_init.task with output := "x", dirty := true } }
    let r := NetworkTask_work_meat s "" 1 0 0 5 (fun _ _ _ => "")
    s.task.dirty = true ∧ s.task.output = "x"
    ∧ r.1.task.dirty = false ∧ r.1.task.output = "" ∧ r.2 = false := by
  decide

/-- Claim C1, amended: `Task._update` sets the dirty flag exactly when the
newly formatted text differs from the stored raw fragment — then it stores
the new raw fragment and schedules the notification callback, and otherwise
changes nothing — and `get_output` reports and clears the flag in one read;
but in addition, a network Source whose device lookup fails clears the
dirty flag and empties the rendered fragment directly, without any
Aggregator read and without notifying, so the at-most-once-notification
discipline holds only for the `_update`/`get_output` pair. -/
theorem C1_dirty_discipline :
    (∀ (fmtf : String → Nat → String) (beau : TaskState → String → String)
       (s : TaskState) (out : String),
       fmtf out s.width = s.raw_output →
       Task_update fmtf beau s out = (s, false))
    ∧ (∀ (fmtf : String → Nat → String) (beau : TaskState → String → String)
         (s : TaskState) (out : String),
         fmtf out s.width ≠ s.raw_output →
         (Task_update fmtf beau s out).1.dirty = true
         ∧ (Task_update fmtf beau s out).1.raw_output = fmtf out s.width
         ∧ (Task_update fmtf beau s out).2 = true)
    ∧ (∀ s : TaskState,
        Task_get_output s = ((s.output, s.dirty), { s with dirty := false }))
    ∧ (∀ (s : NetState) (result : String) (status : Nat) (rxNew txNew : Int)
         (tm : Nat) (fmtSpeed : Int → Nat → Nat → String),
         status ≠ 0 → result = "" →
         NetworkTask_work_meat s result status rxNew txNew tm fmtSpeed
           = ({ s with
                 task := { s.task with output := "", dirty := false },
                 available := false }, false)) := by
  refine ⟨Task_update_of_same, ?_, fun _ => rfl, ?_⟩
  · intro fmtf beau s out h
    rw [Task_update_of_ne fmtf beau s out h]
    exact ⟨rfl, rfl, rfl⟩
  · intro s result status rxNew txNew tm fmtSpeed h1 h2
    subst h2
    unfold NetworkTask_work_meat
    rw [if_pos ⟨h1, rfl⟩]

/-- Witness for C1 at concrete inputs: an unchanged `MemTask` refresh, a
changed `MemTask` refresh, a `get_output` read, and an `EthernetTask`
device-absent pass. -/
theorem C1_witness :
    Task_update Task_format Task_beautify
        { MemTask_init with raw_output := Task_format " y" 11 } " y"
      = ({ MemTask_init with raw_output := Task_format " y" 11 }, false)
    ∧ (Task_update Task_format Task_beautify MemTask_init " z").1.dirty = true
    ∧ Task_get_output DateTask_init
      = ((("" : String), false), { DateTask_init with dirty := false })
    ∧ NetworkTask_work_meat EthernetTask_init "" 1 0 0 3 (fun _ _ _ => "")
      = ({ EthernetTask_init with
            task := { EthernetTask_init.task with output := "", dirty := false },
            available := false }, false) := by
  have h := C1_dirty_discipline
  exact ⟨h.1 Task_format Task_beautify
           { MemTask_init with raw_output := Task_format " y" 11 } " y" (by decide),
         (h.2.1 Task_format Task_beautify MemTask_init " z" (by decide)).1,
         h.2.2.1 DateTask_init,
         h.2.2.2 EthernetTask_init "" 1 0 0 3 (fun _ _ _ => "") (by decide) rfl⟩

end Dbar
